import Mathlib

/-!
Shallow embedding of the dialogue-orchestration core of the repository:
the lead data model (src/models/lead.py), the heuristic slot extractor
(src/agents/lead_collector.py, extract_info_from_message), the unified
tool-loop workflow turn (src/graph/workflow.py, AutoStreamWorkflow.run,
_handle_validation_error, _retrieve_context) and the staged retrieval
context builder (src/agents/rag_retriever.py, retrieve_context).

Python Optional[str] truthiness (None and the empty string are both falsy)
is modelled by `truthy`; machine-level details (LLM calls, the vector
store, the Resend delivery) are external collaborators and enter as
explicit inputs: the LLM response is a value, the retrieval collaborator
output is a list of document strings, and the capture tool boundary is an
oracle function from the requested arguments to either a result string or
the text of a raised validation error.
-/

namespace AutoStream

/-- Python truthiness of an Optional[str]: None and the empty string are falsy. -/
def truthy : Option String → Bool
  | none => false
  | some s => !(s == "")

/-- Embeds the LeadData Pydantic model of src/models/lead.py: three optional
string fields (name, email, platform).  Pydantic does not validate plain
attribute assignment (validate_assignment is off), and extract_info_from_message
assigns fields directly, so the carrier is the raw record type. -/
structure LeadData where
  name : Option String
  email : Option String
  platform : Option String
deriving DecidableEq

/-- LeadData.is_complete of src/models/lead.py: all([self.name, self.email,
self.platform]), i.e. Python truthiness of each field. -/
def LeadData.is_complete (r : LeadData) : Bool :=
  truthy r.name && truthy r.email && truthy r.platform

/-- LeadData.missing_fields of src/models/lead.py: the fields that are falsy,
in the fixed order name, email, platform. -/
def LeadData.missing_fields (r : LeadData) : List String :=
  (if truthy r.name then [] else ["name"]) ++
  (if truthy r.email then [] else ["email"]) ++
  (if truthy r.platform then [] else ["platform"])

/-- The empty LeadData() record created at session start. -/
def emptyLead : LeadData := { name := none, email := none, platform := none }

/-! Substring search, modelling the Python `in` operator on strings. -/

/-- Whether the first list is an initial segment of the second. -/
def leadsWith : List Char → List Char → Bool
  | [], _ => true
  | _ :: _, [] => false
  | a :: as, b :: bs => a == b && leadsWith as bs

/-- Whether the needle occurs contiguously somewhere in the haystack. -/
def occursIn (needle : List Char) : List Char → Bool
  | [] => leadsWith needle []
  | c :: rest => leadsWith needle (c :: rest) || occursIn needle rest

/-- Python `needle in hay` for strings. -/
def strContains (hay needle : String) : Bool :=
  occursIn needle.data hay.data

/-- Python str.lower(): every character lowercased (ASCII; the source only
compares ASCII text). -/
def pyLower (s : String) : String :=
  String.mk (s.data.map Char.toLower)

/-- Characters Python str.strip() and str.split() treat as whitespace
(ASCII; the source messages are ASCII). -/
def pyStrip (s : String) : String :=
  String.mk (((s.data.dropWhile Char.isWhitespace).reverse.dropWhile
    Char.isWhitespace).reverse)

/-- Accumulator pass of pySplit: builds the current token in reverse. -/
def pySplitAux : List Char → List Char → List String
  | [], acc => if acc.isEmpty then [] else [String.mk acc.reverse]
  | c :: rest, acc =>
    if c.isWhitespace then
      if acc.isEmpty then pySplitAux rest []
      else String.mk acc.reverse :: pySplitAux rest []
    else pySplitAux rest (c :: acc)

/-- Python str.split() with no separator: whitespace runs delimit, no empty
tokens are produced. -/
def pySplit (s : String) : List String :=
  pySplitAux s.data []

/-- The validate_name field validator of src/models/lead.py: strips the value
and raises when fewer than 2 characters remain. -/
def validate_name (v : Option String) : Except String (Option String) :=
  match v with
  | none => Except.ok none
  | some s =>
    if (pyStrip s).length < 2 then Except.error "Name must be at least 2 characters"
    else Except.ok (some (pyStrip s))

/-! Executable model of the email regex of src/agents/lead_collector.py line 59:
a backslash-b boundary, then one or more characters of the local class, an @,
one or more characters of the domain class, a literal dot, two or more
characters of the top-level class, and a closing boundary.  Quantifiers are
greedy with backtracking (longest count first) and the search is leftmost,
matching the semantics of Python re.search. -/

/-- Python regex word character (ASCII): letters, digits, underscore. -/
def isWordChar (c : Char) : Bool := c.isAlphanum || c == '_'

/-- Characters admitted before the @ by the pattern. -/
def emailLocalChar (c : Char) : Bool :=
  c.isAlphanum || c == '.' || c == '_' || c == '%' || c == '+' || c == '-'

/-- Characters admitted between the @ and the final dot by the pattern. -/
def emailDomainChar (c : Char) : Bool :=
  c.isAlphanum || c == '.' || c == '-'

/-- Characters admitted after the final dot: the source character class is
written A-Z, a vertical bar, a-z, so the bar itself is a member. -/
def emailTldChar (c : Char) : Bool :=
  c.isAlpha || c == '|'

/-- Whether the character at index i (if any) is a word character. -/
def wordAt (s : List Char) (i : Nat) : Bool :=
  match s.get? i with
  | some c => isWordChar c
  | none => false

/-- Python backslash-b at index i: word-ness changes between i-1 and i,
positions outside the string counting as non-word. -/
def boundaryAt (s : List Char) (i : Nat) : Bool :=
  (decide (0 < i) && wordAt s (i - 1)) != wordAt s i

/-- Length of the longest run of characters satisfying cls at the head. -/
def runLen (cls : Char → Bool) : List Char → Nat
  | [] => 0
  | c :: rest => if cls c then runLen cls rest + 1 else 0

/-- The counts hi, hi-1, ..., lo (empty when hi < lo): greedy backtracking
tries the longest repetition first. -/
def descRange (hi lo : Nat) : List Nat :=
  (List.range (hi + 1 - lo)).map (fun k => hi - k)

/-- Attempts the email pattern at start index i, returning the exclusive end
index of the match chosen by greedy backtracking. -/
def matchEmailAt (s : List Char) (i : Nat) : Option Nat :=
  if boundaryAt s i then
    (descRange (runLen emailLocalChar (s.drop i)) 1).findSome? (fun a =>
      let j := i + a
      if s.get? j == some '@' then
        (descRange (runLen emailDomainChar (s.drop (j + 1))) 1).findSome? (fun b =>
          let p := j + 1 + b
          if s.get? p == some '.' then
            (descRange (runLen emailTldChar (s.drop (p + 1))) 2).findSome? (fun c =>
              let e := p + 1 + c
              if boundaryAt s e then some e else none)
          else none)
      else none)
  else none

/-- Python re.search for the email pattern: the match at the leftmost start
index that admits one, as the matched substring. -/
def email_search (message : String) : Option String :=
  let s := message.data
  (List.range (s.length + 1)).findSome? (fun i =>
    match matchEmailAt s i with
    | some e => some (String.mk ((s.drop i).take (e - i)))
    | none => none)

/-! The slot extractor: LeadCollector.extract_info_from_message of
src/agents/lead_collector.py, split into its three sequential blocks. -/

/-- The platform vocabulary of lead_collector.py lines 66-69, in declared order. -/
def platforms : List String :=
  ["YouTube", "Instagram", "TikTok", "Facebook", "Twitter", "Twitch", "LinkedIn"]

/-- The lowercase connector words accepted inside a name. -/
def nameConnectors : List String := ["van", "de", "von"]

/-- The stoplist of common phrases never taken as a name. -/
def common_phrases : List String := ["yes", "sure", "ok", "yeah", "no", "thanks"]

/-- Python word[0].isupper() on a token (false on an empty token). -/
def firstCharUpper (w : String) : Bool :=
  match w.data with
  | [] => false
  | c :: _ => c.isUpper

/-- Email block (lines 57-62): when the email slot is falsy and the regex
finds a match, the match is assigned verbatim. -/
def extractEmail (message : String) (c : LeadData) : LeadData :=
  if !truthy c.email then
    match email_search message with
    | some m => { c with email := some m }
    | none => c
  else c

/-- Platform block (lines 64-74): when the platform slot is falsy, the first
vocabulary entry whose lowercasing occurs in the lowercased message is
assigned in its canonical casing. -/
def extractPlatform (message : String) (c : LeadData) : LeadData :=
  if !truthy c.platform then
    let message_lower := pyLower message
    match platforms.find? (fun p => strContains message_lower (pyLower p)) with
    | some p => { c with platform := some p }
    | none => c
  else c

/-- Name block (lines 76-88): when the name slot is falsy, the message
tokenizes into 1-4 tokens, every token starts with an uppercase letter or is
a lowercase connector, and the lowercased message is not a common phrase,
the stripped message is assigned as the name. -/
def extractName (message : String) (c : LeadData) : LeadData :=
  if !truthy c.name then
    if 1 ≤ (pySplit (pyStrip message)).length ∧ (pySplit (pyStrip message)).length ≤ 4 then
      if (pySplit (pyStrip message)).all
          (fun w => (w == "") || firstCharUpper w || nameConnectors.contains (pyLower w)) then
        if !(common_phrases.contains (pyLower message)) then
          { c with name := some (pyStrip message) }
        else c
      else c
    else c
  else c

/-- LeadCollector.extract_info_from_message: the email, platform and name
blocks applied in source order to the current record. -/
def extract_info_from_message (message : String) (current : LeadData) : LeadData :=
  extractName message (extractPlatform message (extractEmail message current))

/-- The record obtained by feeding a sequence of messages, one per turn,
through the extractor starting from the empty session record. -/
def extractFold (msgs : List String) : LeadData :=
  msgs.foldl (fun r m => extract_info_from_message m r) emptyLead

/-- Whether the platform slot is either unset or a member of the canonical
vocabulary. -/
def platformOk (r : LeadData) : Bool :=
  match r.platform with
  | none => true
  | some p => platforms.contains p

/-! The unified tool-loop workflow turn: AutoStreamWorkflow.run of
src/graph/workflow.py, together with _handle_validation_error and
_retrieve_context.  The LLM is an external collaborator, so its response
(text plus requested tool calls) is an input to the turn; the capture tool
boundary (lead_capture_tool.invoke) is an oracle from the requested
arguments to either the returned confirmation string or the text of the
exception it raised. -/

/-- A conversation entry: HumanMessage or AIMessage content. -/
inductive Msg
  | human (content : String)
  | ai (content : String)
deriving DecidableEq

/-- One requested tool call of the LLM response: its tool name and its
argument mapping, modelled as an association list of string key-value pairs. -/
structure ToolCall where
  name : String
  args : List (String × String)
deriving DecidableEq

/-- The LLM collaborator response: free text plus requested tool calls. -/
structure LLMResponse where
  content : String
  tool_calls : List ToolCall
deriving DecidableEq

/-- The slice of the workflow state that run reads and writes: the message
window and the captured flag. -/
structure RunState where
  messages : List Msg
  lead_captured : Bool
deriving DecidableEq

/-- The state initialized by run when none is passed (workflow.py lines
150-159): no messages, lead not captured. -/
def initial_state : RunState := { messages := [], lead_captured := false }

/-- The external capture tool boundary: maps the requested arguments to
Except.ok of the confirmation text, or Except.error of the raised message. -/
def Oracle : Type := List (String × String) → Except String String

/-- Python `key in args` on the argument mapping. -/
def hasKey (args : List (String × String)) (k : String) : Bool :=
  args.any (fun kv => kv.fst == k)

/-- Python args.get(key): the first value bound to the key, if any. -/
def getVal (args : List (String × String)) (k : String) : Option String :=
  (args.find? (fun kv => kv.fst == k)).map (fun kv => kv.snd)

/-- Python str() of an Optional[str] as rendered in an f-string: None prints
as the text None. -/
def pyOptStr : Option String → String
  | some s => s
  | none => "None"

/-- AutoStreamWorkflow._handle_validation_error (workflow.py lines 52-78):
an error text containing email (case-insensitively) selects the email
prompt, else one containing name selects the name prompt, else the generic
re-ask for all three fields. -/
def handle_validation_error (error : String) (args : List (String × String)) : String :=
  if strContains (pyLower error) "email" then
    "I noticed there might be an issue with the email address '" ++
      pyOptStr (getVal args "email") ++
      "'. Could you please provide a valid email address?"
  else if strContains (pyLower error) "name" then
    "The name seems to be too short. Could you please provide your full name? (It should be at least 2 characters)"
  else
    "I noticed there might be an issue with the information provided. Could you please double-check and provide the correct details? I need your full name, valid email address, and content creation platform."

/-- The argument gate of workflow.py line 177: the mapping is non-empty and
the keys name, email and platform are all present.  Only key presence is
tested; values are not inspected. -/
def argsOk (args : List (String × String)) : Bool :=
  !args.isEmpty && hasKey args "name" && hasKey args "email" && hasKey args "platform"

/-- Outcome of one requested capture, following section 4.3 of the spec. -/
inductive Outcome
  | executed (text : String)
  | validationFailed (text : String)
  | rejected
deriving DecidableEq

/-- The capture gate of workflow.py lines 177-189 as the attempt_capture
contract of the spec: when the argument gate passes, the tool boundary is
invoked (second component true) and either returns confirmation text or
raises, the raised text being turned into a corrective prompt; when the
gate fails the boundary is never invoked. -/
def attempt_capture (oracle : Oracle) (args : List (String × String)) : Outcome × Bool :=
  if argsOk args then
    match oracle args with
    | Except.ok r => (Outcome.executed r, true)
    | Except.error e => (Outcome.validationFailed (handle_validation_error e args), true)
  else (Outcome.rejected, false)

/-- One iteration of the tool-call loop of workflow.py lines 173-189 on the
state, returning also whether the capture boundary was invoked.  A tool call
with another name is ignored; an executed capture sets lead_captured and
appends the confirmation; a validation failure appends the corrective
prompt; a rejected capture falls back to the free text when it is truthy. -/
def processToolCall (oracle : Oracle) (respContent : String) (s : RunState)
    (tc : ToolCall) : RunState × Bool :=
  if tc.name == "lead_capture_tool" then
    match attempt_capture oracle tc.args with
    | (Outcome.executed r, inv) =>
      ({ messages := s.messages ++ [Msg.ai r], lead_captured := true }, inv)
    | (Outcome.validationFailed m, inv) =>
      ({ s with messages := s.messages ++ [Msg.ai m] }, inv)
    | (Outcome.rejected, inv) =>
      (if respContent == "" then s
       else { s with messages := s.messages ++ [Msg.ai respContent] }, inv)
  else (s, false)

/-- The tool-call loop over every requested call, in order; the invoked flag
records whether any iteration crossed the capture boundary. -/
def processToolCalls (oracle : Oracle) (respContent : String) :
    RunState → List ToolCall → RunState × Bool
  | s, [] => (s, false)
  | s, tc :: rest =>
    let r1 := processToolCall oracle respContent s tc
    let r2 := processToolCalls oracle respContent r1.fst rest
    (r2.fst, r1.snd || r2.snd)

/-- The truncation of workflow.py lines 194-196: when more than 12 messages
are held, keep the last 12. -/
def truncate12 (l : List Msg) : List Msg :=
  if l.length > 12 then l.drop (l.length - 12) else l

/-- AutoStreamWorkflow.run before its final truncation: append the user
message, then either append the plain response or run the tool-call loop. -/
def run_pre (oracle : Oracle) (resp : LLMResponse) (user_message : String)
    (s : RunState) : RunState × Bool :=
  let s1 : RunState := { s with messages := s.messages ++ [Msg.human user_message] }
  if resp.tool_calls.isEmpty then
    ({ s1 with messages := s1.messages ++ [Msg.ai resp.content] }, false)
  else
    processToolCalls oracle resp.content s1 resp.tool_calls

/-- AutoStreamWorkflow.run (workflow.py lines 138-198): the pre-truncation
turn followed by the window truncation. -/
def run (oracle : Oracle) (resp : LLMResponse) (user_message : String)
    (s : RunState) : RunState × Bool :=
  let r := run_pre oracle resp user_message s
  ({ r.fst with messages := truncate12 r.fst.messages }, r.snd)

/-- A whole conversation: the turns applied in order, each carrying its own
collaborator response and user message. -/
def runConversation (turns : List (Oracle × LLMResponse × String)) (s : RunState) : RunState :=
  turns.foldl (fun st t => (run t.fst t.snd.fst t.snd.snd st).fst) s

/-- The truncation of src/app.py lines 159-161: when more than 10 history
entries are held, keep the last 10. -/
def app_truncate (l : List Msg) : List Msg :=
  if l.length > 10 then l.drop (l.length - 10) else l

/-- Number of false-to-true transitions of the captured flag along a
three-state trace. -/
def transCount (a b c : Bool) : Nat :=
  (if a = false ∧ b = true then 1 else 0) + (if b = false ∧ c = true then 1 else 0)

/-! Retrieval context builders. -/

/-- The numbered document blocks of workflow.py lines 98-100. -/
def formatDocs : Nat → List String → List String
  | _, [] => []
  | i, d :: rest => ("Document " ++ toString i ++ ":\n" ++ d) :: formatDocs (i + 1) rest

/-- AutoStreamWorkflow._retrieve_context (workflow.py lines 80-102) applied
to the documents the retrieval collaborator returned: the placeholder on an
empty result, otherwise the numbered blocks joined by blank lines. -/
def retrieve_context (docs : List String) : String :=
  if docs.isEmpty then "No relevant information found in the knowledge base."
  else String.intercalate "\n\n" (formatDocs 1 docs)

/-- The context blocks of rag_retriever.py lines 55-57. -/
def ragFormatDocs : Nat → List String → List String
  | _, [] => []
  | i, d :: rest =>
    ("--- Context " ++ toString i ++ " ---\n" ++ d ++ "\n") :: ragFormatDocs (i + 1) rest

/-- RAGRetriever.retrieve_context (rag_retriever.py lines 40-59) applied to
the documents the retrieval collaborator returned: the context blocks joined
by newlines, with no empty-result placeholder. -/
def rag_retrieve_context (docs : List String) : String :=
  String.intercalate "\n" (ragFormatDocs 1 docs)

/-! Helper lemmas: each extractor block leaves the other two slots
untouched, and leaves its own slot untouched when the slot is truthy. -/

theorem extractEmail_name (m : String) (c : LeadData) : (extractEmail m c).name = c.name := by
  unfold extractEmail
  cases hT : truthy c.email <;> cases hE : email_search m <;> simp [hT, hE]

theorem extractEmail_platform (m : String) (c : LeadData) :
    (extractEmail m c).platform = c.platform := by
  unfold extractEmail
  cases hT : truthy c.email <;> cases hE : email_search m <;> simp [hT, hE]

theorem extractEmail_email_of_truthy (m : String) (c : LeadData)
    (h : truthy c.email = true) : (extractEmail m c).email = c.email := by
  unfold extractEmail
  simp [h]

theorem extractPlatform_name (m : String) (c : LeadData) :
    (extractPlatform m c).name = c.name := by
  unfold extractPlatform
  cases hT : truthy c.platform <;>
    cases hF : platforms.find? (fun p => strContains (pyLower m) (pyLower p)) <;>
    simp [hT, hF]

theorem extractPlatform_email (m : String) (c : LeadData) :
    (extractPlatform m c).email = c.email := by
  unfold extractPlatform
  cases hT : truthy c.platform <;>
    cases hF : platforms.find? (fun p => strContains (pyLower m) (pyLower p)) <;>
    simp [hT, hF]

theorem extractPlatform_platform_of_truthy (m : String) (c : LeadData)
    (h : truthy c.platform = true) : (extractPlatform m c).platform = c.platform := by
  unfold extractPlatform
  simp [h]

theorem extractName_email (m : String) (c : LeadData) : (extractName m c).email = c.email := by
  unfold extractName
  repeat' split
  all_goals rfl

theorem extractName_platform (m : String) (c : LeadData) :
    (extractName m c).platform = c.platform := by
  unfold extractName
  repeat' split
  all_goals rfl

theorem extractName_name_of_truthy (m : String) (c : LeadData)
    (h : truthy c.name = true) : (extractName m c).name = c.name := by
  unfold extractName
  simp [h]

/-- C1 (amended): first-write-wins for truthy slots.  For every message and
every record, extract_info_from_message leaves each slot unchanged once the
slot is truthy, i.e. non-null and non-empty; a slot holding the empty string
is treated as absent by the Python truthiness guards and is not protected. -/
theorem C1_first_write_wins (m : String) (r : LeadData) :
    (truthy r.email = true → (extract_info_from_message m r).email = r.email) ∧
    (truthy r.platform = true → (extract_info_from_message m r).platform = r.platform) ∧
    (truthy r.name = true → (extract_info_from_message m r).name = r.name) := by
  unfold extract_info_from_message
  refine ⟨fun h => ?_, fun h => ?_, fun h => ?_⟩
  · rw [extractName_email, extractPlatform_email, extractEmail_email_of_truthy m r h]
  · have h2 : truthy (extractEmail m r).platform = true := by
      rw [extractEmail_platform]; exact h
    rw [extractName_platform, extractPlatform_platform_of_truthy _ _ h2,
      extractEmail_platform]
  · have h2 : truthy (extractPlatform m (extractEmail m r)).name = true := by
      rw [extractPlatform_name, extractEmail_name]; exact h
    rw [extractName_name_of_truthy _ _ h2, extractPlatform_name, extractEmail_name]

/-- C1 witness: at a record with all three slots truthy, a message carrying a
fresh email and platform changes nothing. -/
theorem C1_witness :
    (extract_info_from_message "reach me on Twitch at bob@example.org"
        { name := some "Jane Doe", email := some "jane@example.com",
          platform := some "YouTube" }).email =
      ({ name := some "Jane Doe", email := some "jane@example.com",
         platform := some "YouTube" } : LeadData).email ∧
    (extract_info_from_message "reach me on Twitch at bob@example.org"
        { name := some "Jane Doe", email := some "jane@example.com",
          platform := some "YouTube" }).platform =
      ({ name := some "Jane Doe", email := some "jane@example.com",
         platform := some "YouTube" } : LeadData).platform ∧
    (extract_info_from_message "reach me on Twitch at bob@example.org"
        { name := some "Jane Doe", email := some "jane@example.com",
          platform := some "YouTube" }).name =
      ({ name := some "Jane Doe", email := some "jane@example.com",
         platform := some "YouTube" } : LeadData).name :=
  ⟨(C1_first_write_wins _ _).1 (by decide),
   (C1_first_write_wins _ _).2.1 (by decide),
   (C1_first_write_wins _ _).2.2 (by decide)⟩

/-- C1 counterexample: the claim as stated quantifies over records with a
non-null email.  At a record whose email is the non-null empty string, the
truthiness guard of lead_collector.py line 58 passes and the extractor
overwrites the field. -/
theorem C1_counterexample :
    ({ name := none, email := some "", platform := none } : LeadData).email ≠ none ∧
    (extract_info_from_message "a@b.com"
        { name := none, email := some "", platform := none }).email ≠
      ({ name := none, email := some "", platform := none } : LeadData).email := by
  decide

/-- C2 (amended): the capture gate of workflow.py line 177 tests only that
the argument mapping is non-empty and that the keys name, email and platform
are present; whenever one of the keys is absent the requested capture is
rejected and the capture boundary is never invoked.  Value non-emptiness is
not checked. -/
theorem C2_capture_gating (oracle : Oracle) (args : List (String × String))
    (h : hasKey args "name" = false ∨ hasKey args "email" = false ∨
      hasKey args "platform" = false) :
    attempt_capture oracle args = (Outcome.rejected, false) := by
  have hok : argsOk args = false := by
    unfold argsOk
    rcases h with h | h | h <;> simp [h]
  unfold attempt_capture
  simp [hok]

/-- C2 witness: the request of the claim, with only the name supplied, is
rejected without invoking the boundary. -/
theorem C2_witness :
    attempt_capture (fun _ => Except.ok "Lead captured") [("name", "Jo")] =
      (Outcome.rejected, false) :=
  C2_capture_gating _ _ (Or.inr (Or.inl (by decide)))

/-- C2 counterexample: arguments in which email and platform are present but
empty are lacking those fields as non-empty values, yet the gate passes and
the capture boundary is invoked, contradicting the claim that such requests
are rejected without side effect. -/
theorem C2_counterexample :
    getVal [("name", "Jo"), ("email", ""), ("platform", "")] "email" = some "" ∧
    attempt_capture (fun _ => Except.ok "Lead captured")
        [("name", "Jo"), ("email", ""), ("platform", "")] =
      (Outcome.executed "Lead captured", true) := by
  decide

/-! Helper lemmas for the conversation window bound. -/

theorem truncate12_length (l : List Msg) : (truncate12 l).length ≤ 12 := by
  unfold truncate12
  split
  · rw [List.length_drop]; omega
  · omega

theorem truncate12_suffix (l : List Msg) : truncate12 l <:+ l := by
  unfold truncate12
  split
  · exact List.drop_suffix _ _
  · exact List.suffix_refl l

theorem app_truncate_length (l : List Msg) : (app_truncate l).length ≤ 10 := by
  unfold app_truncate
  split
  · rw [List.length_drop]; omega
  · omega

theorem app_truncate_suffix (l : List Msg) : app_truncate l <:+ l := by
  unfold app_truncate
  split
  · exact List.drop_suffix _ _
  · exact List.suffix_refl l

theorem run_messages_eq (oracle : Oracle) (resp : LLMResponse) (u : String) (s : RunState) :
    ((run oracle resp u s).fst).messages =
      truncate12 ((run_pre oracle resp u s).fst).messages := rfl

theorem run_length_le (oracle : Oracle) (resp : LLMResponse) (u : String) (s : RunState) :
    (((run oracle resp u s).fst).messages).length ≤ 12 := by
  rw [run_messages_eq]
  exact truncate12_length _

theorem runConversation_cons_length (t : Oracle × LLMResponse × String)
    (ts : List (Oracle × LLMResponse × String)) (s : RunState) :
    ((runConversation (t :: ts) s).messages).length ≤ 12 := by
  induction ts generalizing t s with
  | nil => exact run_length_le _ _ _ _
  | cons t2 rest ih =>
    show ((runConversation (t2 :: rest) ((run t.fst t.snd.fst t.snd.snd s).fst)).messages).length ≤ 12
    exact ih t2 _

/-- C3: bounded conversation window.  After any turn the message history of
the unified workflow holds at most 12 entries and is a suffix of the
pre-truncation sequence (older entries dropped from the front); the bound
holds after every turn of an arbitrarily long conversation; and the history
truncation of src/app.py keeps at most its 10 most recent entries (hence at
most 12), again a suffix of the pre-truncation sequence. -/
theorem C3_bounded_window (oracle : Oracle) (resp : LLMResponse) (u : String) (s : RunState)
    (t : Oracle × LLMResponse × String) (ts : List (Oracle × LLMResponse × String))
    (h : List Msg) :
    (((run oracle resp u s).fst).messages).length ≤ 12 ∧
    ((run oracle resp u s).fst).messages <:+ ((run_pre oracle resp u s).fst).messages ∧
    ((runConversation (t :: ts) s).messages).length ≤ 12 ∧
    (app_truncate h).length ≤ 12 ∧ app_truncate h <:+ h := by
  refine ⟨run_length_le _ _ _ _, ?_, runConversation_cons_length _ _ _,
    le_trans (app_truncate_length h) (by omega), app_truncate_suffix h⟩
  rw [run_messages_eq]
  exact truncate12_suffix _

/-! Helper lemmas for the monotonicity of the captured flag. -/

theorem processToolCall_captured (oracle : Oracle) (c : String) (s : RunState) (tc : ToolCall)
    (h : s.lead_captured = true) :
    ((processToolCall oracle c s tc).fst).lead_captured = true := by
  unfold processToolCall
  split
  · rcases hA : attempt_capture oracle tc.args with ⟨out, inv⟩
    cases out with
    | executed r => simp
    | validationFailed m => simpa using h
    | rejected => cases hc : c == "" <;> simp [hc, h]
  · exact h

theorem processToolCalls_captured (oracle : Oracle) (c : String) (tcs : List ToolCall)
    (s : RunState) (h : s.lead_captured = true) :
    ((processToolCalls oracle c s tcs).fst).lead_captured = true := by
  induction tcs generalizing s with
  | nil => exact h
  | cons tc rest ih =>
    show ((processToolCalls oracle c (processToolCall oracle c s tc).fst rest).fst).lead_captured = true
    exact ih _ (processToolCall_captured oracle c s tc h)

theorem run_captured (oracle : Oracle) (resp : LLMResponse) (u : String) (s : RunState)
    (h : s.lead_captured = true) :
    ((run oracle resp u s).fst).lead_captured = true := by
  unfold run run_pre
  split
  · simpa using h
  · exact processToolCalls_captured _ _ _ _ (by simpa using h)

theorem bool_le_of_imp {a b : Bool} (h : a = true → b = true) : a ≤ b := by
  cases a <;> cases b <;> simp_all

theorem transCount_le_one (a b c : Bool) (h1 : a ≤ b) (h2 : b ≤ c) :
    transCount a b c ≤ 1 := by
  revert h1 h2
  cases a <;> cases b <;> cases c <;> decide

/-- C4: the lead_captured flag is monotone false to true across turns and is
never reset; over any two consecutive turns (in particular two capture
requests with the same complete valid arguments) the flag undergoes at most
one false-to-true transition, the second turn never un-setting it. -/
theorem C4_capture_monotone (o1 o2 : Oracle) (r1 r2 : LLMResponse) (u1 u2 : String)
    (s : RunState) :
    s.lead_captured ≤ ((run o1 r1 u1 s).fst).lead_captured ∧
    ((run o1 r1 u1 s).fst).lead_captured ≤
      ((run o2 r2 u2 (run o1 r1 u1 s).fst).fst).lead_captured ∧
    transCount s.lead_captured ((run o1 r1 u1 s).fst).lead_captured
      ((run o2 r2 u2 (run o1 r1 u1 s).fst).fst).lead_captured ≤ 1 := by
  have m1 : s.lead_captured ≤ ((run o1 r1 u1 s).fst).lead_captured :=
    bool_le_of_imp (run_captured o1 r1 u1 s)
  have m2 : ((run o1 r1 u1 s).fst).lead_captured ≤
      ((run o2 r2 u2 (run o1 r1 u1 s).fst).fst).lead_captured :=
    bool_le_of_imp (run_captured o2 r2 u2 _)
  exact ⟨m1, m2, transCount_le_one _ _ _ m1 m2⟩

/-! Helper lemmas relating truthiness to non-null non-empty options. -/

theorem truthy_iff (o : Option String) : truthy o = true ↔ (o ≠ none ∧ o ≠ some "") := by
  cases o with
  | none => simp [truthy]
  | some s => simp [truthy]

/-- C5 (amended): is_complete is decided by Python truthiness alone, with no
per-field validation: it is true iff the name, email and platform slots are
each non-null and non-empty, whether or not the held values would pass the
field validators. -/
theorem C5_complete_iff_truthy (r : LeadData) :
    r.is_complete = true ↔
      ((r.name ≠ none ∧ r.name ≠ some "") ∧
       (r.email ≠ none ∧ r.email ≠ some "") ∧
       (r.platform ≠ none ∧ r.platform ≠ some "")) := by
  unfold LeadData.is_complete
  simp [Bool.and_eq_true, truthy_iff, and_assoc]

/-- C5 witness: a record with all three slots non-null and non-empty is
complete. -/
theorem C5_witness :
    ({ name := some "Jane Doe", email := some "jane@example.com",
       platform := some "YouTube" } : LeadData).is_complete = true :=
  (C5_complete_iff_truthy _).mpr (by decide)

/-- C5 counterexample: the session reachable record obtained from the three
messages below is complete although its name J fails validate_name (fewer
than 2 characters after stripping), refuting the only-if-valid direction of
the claim. -/
theorem C5_counterexample :
    (extractFold ["jane@example.com", "I use YouTube", "J"]).name = some "J" ∧
    (extractFold ["jane@example.com", "I use YouTube", "J"]).is_complete = true ∧
    validate_name (some "J") = Except.error "Name must be at least 2 characters" := by
  refine ⟨by decide, by decide, rfl⟩

/-- C6 counterexample: fed in the order of the claim, the first message has
five whitespace tokens, so the 1-4 token name heuristic never fires: the
final record has no name and is not complete. -/
theorem C6_counterexample :
    (extractFold ["My name is Jane Doe", "jane@example.com", "I make YouTube videos"]).name
        = none ∧
    (extractFold
        ["My name is Jane Doe", "jane@example.com", "I make YouTube videos"]).is_complete
        = false := by
  refine ⟨by decide, by decide⟩

/-- C6 (amended): the three messages of the claim yield the email and the
canonical platform but no name, because My name is Jane Doe tokenizes into
5 tokens, beyond the 1-4 token limit of the name heuristic, so the final
record is not complete; with the bare name Jane Doe as the first message
instead, all three slots are filled and the record is complete. -/
theorem C6_three_messages :
    ((extractFold ["My name is Jane Doe", "jane@example.com", "I make YouTube videos"]).email
        = some "jane@example.com" ∧
      (extractFold
          ["My name is Jane Doe", "jane@example.com", "I make YouTube videos"]).platform
        = some "YouTube" ∧
      (extractFold ["My name is Jane Doe", "jane@example.com", "I make YouTube videos"]).name
        = none ∧
      (extractFold
          ["My name is Jane Doe", "jane@example.com", "I make YouTube videos"]).is_complete
        = false) ∧
    ((extractFold ["Jane Doe", "jane@example.com", "I make YouTube videos"]).name
        = some "Jane Doe" ∧
      (extractFold ["Jane Doe", "jane@example.com", "I make YouTube videos"]).email
        = some "jane@example.com" ∧
      (extractFold ["Jane Doe", "jane@example.com", "I make YouTube videos"]).platform
        = some "YouTube" ∧
      (extractFold ["Jane Doe", "jane@example.com", "I make YouTube videos"]).is_complete
        = true) := by
  exact ⟨⟨by decide, by decide, by decide, by decide⟩,
    ⟨by decide, by decide, by decide, by decide⟩⟩

/-! Helper lemmas for the platform canonicalization invariant. -/

theorem platformOk_congr {a b : LeadData} (h : a.platform = b.platform) :
    platformOk a = platformOk b := by
  unfold platformOk
  rw [h]

theorem extractPlatform_platform (m : String) (c : LeadData)
    (h : truthy c.platform = false) :
    (extractPlatform m c).platform =
      (match platforms.find? (fun p => strContains (pyLower m) (pyLower p)) with
       | some p => some p
       | none => c.platform) := by
  unfold extractPlatform
  cases hF : platforms.find? (fun p => strContains (pyLower m) (pyLower p)) <;>
    simp [h, hF]

theorem platformOk_extract (m : String) (r : LeadData) (h : platformOk r = true) :
    platformOk (extract_info_from_message m r) = true := by
  have h1 : platformOk (extract_info_from_message m r) =
      platformOk (extractPlatform m (extractEmail m r)) :=
    platformOk_congr (by unfold extract_info_from_message; rw [extractName_platform])
  rw [h1]
  cases hT : truthy (extractEmail m r).platform with
  | true =>
    rw [platformOk_congr (extractPlatform_platform_of_truthy m _ hT),
      platformOk_congr (extractEmail_platform m r)]
    exact h
  | false =>
    cases hF : platforms.find? (fun p => strContains (pyLower m) (pyLower p)) with
    | some p =>
      have hplat : (extractPlatform m (extractEmail m r)).platform = some p := by
        rw [extractPlatform_platform m _ hT, hF]
      have hmem : p ∈ platforms := List.mem_of_find?_eq_some hF
      unfold platformOk
      rw [hplat]
      simpa using hmem
    | none =>
      have hplat : (extractPlatform m (extractEmail m r)).platform = r.platform := by
        rw [extractPlatform_platform m _ hT, hF, extractEmail_platform]
      rw [platformOk_congr hplat]
      exact h

theorem platformOk_foldl (msgs : List String) (r0 : LeadData) (h : platformOk r0 = true) :
    platformOk (msgs.foldl (fun r m => extract_info_from_message m r) r0) = true := by
  induction msgs generalizing r0 with
  | nil => exact h
  | cons m rest ih => exact ih _ (platformOk_extract m r0 h)

/-- C7: platform canonicalization.  Every record reachable from the empty
session record by extraction has its platform slot either unset or a member
of the canonical vocabulary in canonical casing; the two tiktok messages of
the claim both set the canonical TikTok; and on a record whose platform slot
is falsy, the slot set by extraction is exactly the first vocabulary entry
(in declared order) whose lowercasing occurs in the lowercased message. -/
theorem C7_platform_canonical (msgs : List String) (m : String) (r : LeadData)
    (h : truthy r.platform = false) :
    platformOk (extractFold msgs) = true ∧
    (extract_info_from_message "I'm on tiktok" emptyLead).platform = some "TikTok" ∧
    (extract_info_from_message "I use Tiktok" emptyLead).platform = some "TikTok" ∧
    (extract_info_from_message m r).platform =
      (match platforms.find? (fun p => strContains (pyLower m) (pyLower p)) with
       | some p => some p
       | none => r.platform) := by
  refine ⟨?_, by decide, by decide, ?_⟩
  · unfold extractFold
    exact platformOk_foldl msgs emptyLead rfl
  · have h2 : truthy (extractEmail m r).platform = false := by
      rw [extractEmail_platform]; exact h
    unfold extract_info_from_message
    rw [extractName_platform, extractPlatform_platform m _ h2, extractEmail_platform]

/-- C7 witness: the invariant, the two canonical examples, and the
first-match characterization at a concrete message and the empty record. -/
theorem C7_witness :
    platformOk (extractFold ["I use Tiktok"]) = true ∧
    (extract_info_from_message "I'm on tiktok" emptyLead).platform = some "TikTok" ∧
    (extract_info_from_message "I use Tiktok" emptyLead).platform = some "TikTok" ∧
    (extract_info_from_message "I'm on tiktok" emptyLead).platform =
      (match platforms.find? (fun p => strContains (pyLower "I'm on tiktok") (pyLower p)) with
       | some p => some p
       | none => emptyLead.platform) :=
  C7_platform_canonical ["I use Tiktok"] "I'm on tiktok" emptyLead (by decide)

/-- C8: deterministic corrective prompts on a capture-time validation
failure.  When a complete-keyed capture request raises, the turn appends the
corrective prompt chosen from the error text and the captured flag stays
false: an error text containing email (after lowercasing) selects the
valid-email prompt, one containing name but not email selects the full-name
prompt, and any other error text selects the generic re-ask for all three
fields. -/
theorem C8_validation_error_policy (error : String) (args : List (String × String))
    (u : String) (s : RunState) (hargs : argsOk args = true)
    (hcap : s.lead_captured = false) :
    ((run (fun _ => Except.error error)
        { content := "", tool_calls := [{ name := "lead_capture_tool", args := args }] }
        u s).fst).lead_captured = false ∧
    ((run (fun _ => Except.error error)
        { content := "", tool_calls := [{ name := "lead_capture_tool", args := args }] }
        u s).fst).messages =
      truncate12 (s.messages ++ [Msg.human u, Msg.ai (handle_validation_error error args)]) ∧
    (strContains (pyLower error) "email" = true →
      handle_validation_error error args =
        "I noticed there might be an issue with the email address '" ++
          pyOptStr (getVal args "email") ++
          "'. Could you please provide a valid email address?") ∧
    (strContains (pyLower error) "email" = false →
     strContains (pyLower error) "name" = true →
      handle_validation_error error args =
        "The name seems to be too short. Could you please provide your full name? (It should be at least 2 characters)") ∧
    (strContains (pyLower error) "email" = false →
     strContains (pyLower error) "name" = false →
      handle_validation_error error args =
        "I noticed there might be an issue with the information provided. Could you please double-check and provide the correct details? I need your full name, valid email address, and content creation platform.") := by
  refine ⟨?_, ?_, fun h1 => ?_, fun h1 h2 => ?_, fun h1 h2 => ?_⟩
  · simp [run, run_pre, processToolCalls, processToolCall, attempt_capture, hargs, hcap]
  · simp [run, run_pre, processToolCalls, processToolCall, attempt_capture, hargs]
  · simp [handle_validation_error, h1]
  · simp [handle_validation_error, h1, h2]
  · simp [handle_validation_error, h1, h2]

/-- C8 witness: a failing capture attempt at the initial state with an email
validation error appends the email corrective prompt and leaves the flag
unset. -/
theorem C8_witness :
    ((run (fun _ => Except.error "value is not a valid email address")
        { content := "",
          tool_calls := [{ name := "lead_capture_tool",
                           args := [("name", "Jo"), ("email", "jo(at)x"),
                             ("platform", "YouTube")] }] }
        "sign me up" initial_state).fst).lead_captured = false ∧
    ((run (fun _ => Except.error "value is not a valid email address")
        { content := "",
          tool_calls := [{ name := "lead_capture_tool",
                           args := [("name", "Jo"), ("email", "jo(at)x"),
                             ("platform", "YouTube")] }] }
        "sign me up" initial_state).fst).messages =
      truncate12 (initial_state.messages ++
        [Msg.human "sign me up",
         Msg.ai (handle_validation_error "value is not a valid email address"
            [("name", "Jo"), ("email", "jo(at)x"), ("platform", "YouTube")])]) ∧
    (strContains (pyLower "value is not a valid email address") "email" = true →
      handle_validation_error "value is not a valid email address"
          [("name", "Jo"), ("email", "jo(at)x"), ("platform", "YouTube")] =
        "I noticed there might be an issue with the email address '" ++
          pyOptStr (getVal [("name", "Jo"), ("email", "jo(at)x"), ("platform", "YouTube")]
            "email") ++
          "'. Could you please provide a valid email address?") ∧
    (strContains (pyLower "value is not a valid email address") "email" = false →
     strContains (pyLower "value is not a valid email address") "name" = true →
      handle_validation_error "value is not a valid email address"
          [("name", "Jo"), ("email", "jo(at)x"), ("platform", "YouTube")] =
        "The name seems to be too short. Could you please provide your full name? (It should be at least 2 characters)") ∧
    (strContains (pyLower "value is not a valid email address") "email" = false →
     strContains (pyLower "value is not a valid email address") "name" = false →
      handle_validation_error "value is not a valid email address"
          [("name", "Jo"), ("email", "jo(at)x"), ("platform", "YouTube")] =
        "I noticed there might be an issue with the information provided. Could you please double-check and provide the correct details? I need your full name, valid email address, and content creation platform.") :=
  C8_validation_error_policy "value is not a valid email address"
    [("name", "Jo"), ("email", "jo(at)x"), ("platform", "YouTube")]
    "sign me up" initial_state (by decide) rfl

/-- C9 (amended): on zero retrieved passages the unified workflow context
builder returns the literal non-empty placeholder, so its generation step
receives non-empty grounding text; the staged RAGRetriever context builder
has no such placeholder and returns the empty string. -/
theorem C9_placeholder :
    retrieve_context [] = "No relevant information found in the knowledge base." ∧
    retrieve_context [] ≠ "" ∧
    rag_retrieve_context [] = "" := by
  exact ⟨rfl, by decide, rfl⟩

/-- C9 counterexample: the cited staged builder, given zero passages,
returns the empty string, not a non-empty placeholder. -/
theorem C9_counterexample :
    rag_retrieve_context [] = "" ∧
    rag_retrieve_context [] ≠ "No relevant information found in the knowledge base." := by
  exact ⟨rfl, by decide⟩

/-- C10: empty-string fields count as missing at the public interface.  For
every record, replacing a field by the empty string puts that field in
missing_fields and makes is_complete false, with exactly the same
missing_fields result as replacing the field by null, since both are decided
by Python truthiness. -/
theorem C10_empty_counts_missing (r : LeadData) :
    (({ r with name := some "" } : LeadData).missing_fields =
        ({ r with name := none } : LeadData).missing_fields ∧
      "name" ∈ ({ r with name := some "" } : LeadData).missing_fields ∧
      ({ r with name := some "" } : LeadData).is_complete = false) ∧
    (({ r with email := some "" } : LeadData).missing_fields =
        ({ r with email := none } : LeadData).missing_fields ∧
      "email" ∈ ({ r with email := some "" } : LeadData).missing_fields ∧
      ({ r with email := some "" } : LeadData).is_complete = false) ∧
    (({ r with platform := some "" } : LeadData).missing_fields =
        ({ r with platform := none } : LeadData).missing_fields ∧
      "platform" ∈ ({ r with platform := some "" } : LeadData).missing_fields ∧
      ({ r with platform := some "" } : LeadData).is_complete = false) := by
  refine ⟨⟨?_, ?_, ?_⟩, ⟨?_, ?_, ?_⟩, ⟨?_, ?_, ?_⟩⟩ <;>
    simp [LeadData.missing_fields, LeadData.is_complete, truthy]

end AutoStream
